import Mathlib

/-!
Shallow embedding of the oci-k8s-resource-sync operator.

The Go sources embedded here:
* `internal/orasclient` — `CreateClient`, `GetDigest`, `GetFiles`,
  `GetFilesContentBinary` (file `src/unnamed/part_001`, first half);
* `internal/utils` — `FilterMapInPlace` (same file, second half);
* `internal/controller/ocisecret_controller.go` — `Reconcile`.

External effects (Kubernetes API calls, the oras registry library, the
filesystem) are modelled as oracles: each call site receives the outcome the
outside world would produce, recorded in an environment structure.  A Go
`panic` is a distinct outcome (`POut.panicked`) from a returned `error`
value, since a panic terminates the process while an error is handed to the
caller.  Go maps are modelled as association lists with unique keys; Go map
iteration order does not matter for any modelled function (deletion and
single-key extraction are order independent).
-/

namespace OciSync

/-- Raw byte strings (`[]byte`). -/
abbrev Bytes := List Nat

/-- `v1.SecretReference`: name plus namespace. -/
structure SecretRef where
  name : String
  ns : String
deriving Repr, DecidableEq

/-- `OCISecretSpec` from `api/v1aplha1/ocisecret_types.go`:
`ArtefactPullSecret`, `ArtefactRegistry`, `OrasArtefact`, `TargetSecret`,
`Sync.Files`. -/
structure OCISecretSpec where
  artefactPullSecret : SecretRef
  artefactRegistry : String
  orasArtefact : String
  targetSecret : SecretRef
  syncFiles : List String
deriving Repr, DecidableEq

/-- The `OCISecret` custom resource: identity fields used for the owner
reference, plus its spec. -/
structure OCISecretRes where
  apiVersion : String
  kind : String
  name : String
  uid : String
  spec : OCISecretSpec
deriving Repr, DecidableEq

/-- `metav1.OwnerReference` as populated by the controller. -/
structure OwnerReference where
  apiVersion : String
  kind : String
  name : String
  uid : String
  controller : Bool
  blockOwnerDeletion : Bool
deriving Repr, DecidableEq

/-- A `v1core.Secret`: object name/namespace, annotations, owner references
and the data map. -/
structure Secret where
  name : String
  ns : String
  annotations : List (String × String)
  ownerReferences : List OwnerReference
  data : List (String × Bytes)
deriving Repr, DecidableEq

/-- A Kubernetes API error, as the controller distinguishes it via
`apierrors.IsNotFound`. -/
inductive K8sErr where
  | notFound
  | other (msg : String)
deriving Repr, DecidableEq

/-- Outcome of a Go function that can panic but returns no `error`:
either the declared return value, or a panic that terminates the process. -/
inductive POut (α : Type) where
  | ok : α → POut α
  | panicked : String → POut α
deriving Repr, DecidableEq

/-- `v1.Descriptor` returned by `oras.Fetch` / `oras.Copy`; only the digest
is consumed. -/
structure Descriptor where
  digest : String
deriving Repr, DecidableEq

/-- How `CreateClient` configured `repo.Client`: with a credential store, or
for anonymous access. -/
inductive AuthMode where
  | anonymous
  | withCredStore
deriving Repr, DecidableEq

/-- The `registry.Repository` handle returned by `CreateClient`. -/
structure Repository where
  addr : String
  client : AuthMode
deriving Repr, DecidableEq

deriving instance DecidableEq for Except

/-- One `os.DirEntry` of the extraction directory, with the outcome
`os.ReadFile` would produce for it. -/
structure DirEntry where
  name : String
  isDir : Bool
  readFile : Except String Bytes
deriving Repr, DecidableEq

/-- Oracle for the library and OS calls made by one `orasclient` operation:
`remote.NewRepository`, `credentials.NewMemoryStoreFromDockerConfig`,
`oras.Fetch`, `os.MkdirTemp`, `file.New`, `oras.Copy`, `os.ReadDir`. -/
structure OrasLibEnv where
  newRepository : Except String Unit
  newMemoryStore : Except String Unit
  fetch : Except String Descriptor
  mkdirTemp : Except String String
  fileNew : Except String Unit
  copy : Except String Descriptor
  readDir : Except String (List DirEntry)
deriving Repr, DecidableEq

/-- `orasclient.CreateClient(registry, creds)`: builds the repository handle;
`panic(err)` if `remote.NewRepository` fails; when `len(creds) > 0` it parses
the Docker config (`panic(err)` on failure) and attaches the credential
store, otherwise it configures anonymous access. -/
def CreateClient (lib : OrasLibEnv) (registry : String) (creds : Bytes) :
    POut Repository :=
  match lib.newRepository with
  | .error e => .panicked e
  | .ok _ =>
    if creds.length > 0 then
      match lib.newMemoryStore with
      | .error e => .panicked e
      | .ok _ => .ok ⟨registry, .withCredStore⟩
    else
      .ok ⟨registry, .anonymous⟩

/-- `orasclient.GetDigest(registry, tag, creds)`: creates the client, fetches
the manifest descriptor (`panic(err)` on failure) and returns the digest
string. -/
def GetDigest (lib : OrasLibEnv) (registry tag : String) (creds : Bytes) :
    POut String :=
  match CreateClient lib registry creds with
  | .panicked e => .panicked e
  | .ok _ =>
    match lib.fetch with
    | .error e => .panicked e
    | .ok d => .ok d.digest

/-- The loop body of `GetFilesContentBinary`: skip directories, read each
regular file, abort with the German error message on a read failure. -/
def readEntries : List DirEntry → List (String × Bytes) →
    Except String (List (String × Bytes))
  | [], acc => .ok acc
  | e :: rest, acc =>
    if e.isDir then
      readEntries rest acc
    else
      match e.readFile with
      | .error err =>
          .error ("fehler beim Lesen der Datei " ++ e.name ++ ": " ++ err)
      | .ok content => readEntries rest (acc ++ [(e.name, content)])

/-- `orasclient.GetFilesContentBinary(dirPath)`: reads every top-level
regular file of the directory into a map, returning an explicit error if the
directory listing or any file read fails. -/
def GetFilesContentBinary (readDir : Except String (List DirEntry)) :
    Except String (List (String × Bytes)) :=
  match readDir with
  | .error e => .error ("fehler beim Lesen des Verzeichnisses: " ++ e)
  | .ok entries => readEntries entries []

/-- `orasclient.Filemap`: the artifact digest plus the filename → content
map. -/
structure Filemap where
  digest : String
  files : List (String × Bytes)
deriving Repr, DecidableEq

/-- `orasclient.GetFiles(registy, tag, creds)`: makes the temp dir and file
store (`panic(err)` on failure), creates the client, copies the artifact
(`panic(err)` on failure), then reads the extracted files — the error of
`GetFilesContentBinary` is assigned to `err` but never checked, so a failed
read leaves `filesMap` nil and the `Filemap` is returned as a success. -/
def GetFiles (lib : OrasLibEnv) (registry tag : String) (creds : Bytes) :
    POut Filemap :=
  match lib.mkdirTemp with
  | .error e => .panicked e
  | .ok _ =>
    match lib.fileNew with
    | .error e => .panicked e
    | .ok _ =>
      match CreateClient lib registry creds with
      | .panicked e => .panicked e
      | .ok _ =>
        match lib.copy with
        | .error e => .panicked e
        | .ok d =>
          let filesMap :=
            match GetFilesContentBinary lib.readDir with
            | .error _ => []
            | .ok m => m
          .ok ⟨d.digest, filesMap⟩

/-- `utils.FilterMapInPlace(m, allowedKeys)`: builds a lookup set from
`allowedKeys` and deletes from `m` every key not in that set; membership in
the built set coincides with membership in `allowedKeys`. -/
def FilterMapInPlace (m : List (String × Bytes)) (allowedKeys : List String) :
    List (String × Bytes) :=
  m.filter (fun kv => allowedKeys.contains kv.1)

/-! ## The controller (`internal/controller/ocisecret_controller.go`) -/

/-- `ctrl.Result`: only `RequeueAfter` is ever set (in seconds);
`ctrl.Result{}` is `⟨0⟩`. -/
structure CtrlResult where
  requeueAfterSec : Nat
deriving Repr, DecidableEq

/-- The way one call of `Reconcile` ends: a normal `return result, err`,
or a panic propagating out of an `orasclient` call. -/
inductive Ret where
  | normal : CtrlResult → Option K8sErr → Ret
  | panic : String → Ret
deriving Repr, DecidableEq

/-- Observable outcome of one reconcile pass: how it returned, the argument
of the `r.Create` call if one was made, whether `orasclient.GetFiles` was
invoked, and the argument of the `r.Update` call if one was made. -/
structure ReconcileResult where
  ret : Ret
  created : Option Secret
  fetchInvoked : Bool
  updated : Option Secret
deriving Repr, DecidableEq

/-- Oracle for the Kubernetes and registry calls of one reconcile pass, in
call order: `r.Get` on the `OCISecret`, `r.Get` on the pull secret, the
library calls of `GetDigest`, `r.Get` on the target secret (step 4a),
the outcome of `r.Create` (only logged by the code), the re-read `r.Get`
(step 4b), the library calls of `GetFiles`, and the outcome of
`r.Update`. -/
structure ReconcileEnv where
  getOCISecret : Except K8sErr OCISecretRes
  getPullSecret : Except K8sErr Secret
  digestLib : OrasLibEnv
  getTarget1 : Except K8sErr Secret
  createResult : Option K8sErr
  getTarget2 : Except K8sErr Secret
  filesLib : OrasLibEnv
  updateResult : Option K8sErr
deriving Repr, DecidableEq

/-- Step 2 of `Reconcile`: resolve `secretData` from the pull secret.
`.error` carries the `(result, err)` of an early `return`; `.ok` carries the
bytes `[]byte(secretData)` passed on to the `orasclient` calls.  When the
reference has an empty name or namespace the secret is not resolved and
`secretData` stays empty; when the referenced secret exists, the loop over
its data picks the `.dockerconfigjson` value (map keys are unique); an
empty `secretData` after that loop causes `return ctrl.Result{}, nil`. -/
def pullData (getPullSecret : Except K8sErr Secret) (spec : OCISecretSpec) :
    Except (CtrlResult × Option K8sErr) Bytes :=
  if spec.artefactPullSecret.name = "" ∨ spec.artefactPullSecret.ns = "" then
    .ok []
  else
    match getPullSecret with
    | .error .notFound => .error (⟨0⟩, some .notFound)
    | .error (.other m) => .error (⟨0⟩, some (.other m))
    | .ok ps =>
      let secretData := (ps.data.lookup ".dockerconfigjson").getD []
      if secretData = [] then .error (⟨0⟩, none) else .ok secretData

/-- `TargetSecret.Annotations["OCISecret.operator.rev"]`; a Go map read of a
missing key yields the zero value `""`. -/
def revisionOf (s : Secret) : String :=
  (s.annotations.lookup "OCISecret.operator.rev").getD ""

/-- Go map assignment `m[k] = v` on the association-list model. -/
def setAssoc (k : String) (v : α) : List (String × α) → List (String × α)
  | [] => [(k, v)]
  | (k', v') :: rest =>
      if k' = k then (k, v) :: rest else (k', v') :: setAssoc k v rest

/-- The `v1core.Secret` literal built in step 4a when the target secret is
absent: target name/namespace from the spec, the placeholder revision
annotation `"00000"`, and an owner reference to the `OCISecret`. -/
def newTargetSecret (o : OCISecretRes) : Secret :=
  { name := o.spec.targetSecret.name
    ns := o.spec.targetSecret.ns
    annotations := [("OCISecret.operator.rev", "00000")]
    ownerReferences :=
      [⟨o.apiVersion, o.kind, o.name, o.uid, true, true⟩]
    data := [] }

/-- Steps 4b–5 of `Reconcile`, after the target secret has been re-read:
compare the revision annotation with `currentDigest` and the data size with
`len(Spec.Sync.Files)`; if either differs, download via `GetFiles`, filter
when `Spec.Sync.Files` is non-empty, replace the data wholesale, stamp the
annotation with the downloaded digest and `r.Update`. -/
def syncStep (env : ReconcileEnv) (o : OCISecretRes) (secretData : Bytes)
    (currentDigest : String) (created : Option Secret) (target : Secret) :
    ReconcileResult :=
  if revisionOf target ≠ currentDigest ∨
      target.data.length ≠ o.spec.syncFiles.length then
    match GetFiles env.filesLib o.spec.artefactRegistry o.spec.orasArtefact
        secretData with
    | .panicked m =>
        { ret := .panic m, created := created, fetchInvoked := true,
          updated := none }
    | .ok content =>
      let files :=
        if o.spec.syncFiles.length > 0 then
          FilterMapInPlace content.files o.spec.syncFiles
        else
          content.files
      let newTarget : Secret :=
        { target with
            data := files
            annotations :=
              setAssoc "OCISecret.operator.rev" content.digest
                target.annotations }
      match env.updateResult with
      | some e =>
          { ret := .normal ⟨0⟩ (some e), created := created,
            fetchInvoked := true, updated := some newTarget }
      | none =>
          { ret := .normal ⟨60⟩ none, created := created,
            fetchInvoked := true, updated := some newTarget }
  else
    { ret := .normal ⟨60⟩ none, created := created, fetchInvoked := false,
      updated := none }

/-- `OCISecretReconciler.Reconcile`: fetch the `OCISecret` (a missing
resource is a clean no-op return, any other get error is returned); resolve
the pull secret (`pullData`); fetch the current digest (`GetDigest`, whose
panics propagate); ensure the target secret exists, creating it with the
placeholder revision when absent — the `r.Create` outcome is only logged —
then re-read it; run the comparison and conditional sync (`syncStep`); and
finally `return ctrl.Result{RequeueAfter: 60s}, nil`. -/
def Reconcile (env : ReconcileEnv) : ReconcileResult :=
  match env.getOCISecret with
  | .error .notFound =>
      { ret := .normal ⟨0⟩ none, created := none, fetchInvoked := false,
        updated := none }
  | .error (.other m) =>
      { ret := .normal ⟨0⟩ (some (.other m)), created := none,
        fetchInvoked := false, updated := none }
  | .ok o =>
    match pullData env.getPullSecret o.spec with
    | .error (res, e) =>
        { ret := .normal res e, created := none, fetchInvoked := false,
          updated := none }
    | .ok secretData =>
      match GetDigest env.digestLib o.spec.artefactRegistry
          o.spec.orasArtefact secretData with
      | .panicked m =>
          { ret := .panic m, created := none, fetchInvoked := false,
            updated := none }
      | .ok currentDigest =>
        match env.getTarget1 with
        | .error (.other m) =>
            { ret := .normal ⟨0⟩ (some (.other m)), created := none,
              fetchInvoked := false, updated := none }
        | .error .notFound =>
          let created := some (newTargetSecret o)
          match env.getTarget2 with
          | .error e =>
              { ret := .normal ⟨0⟩ (some e), created := created,
                fetchInvoked := false, updated := none }
          | .ok target =>
              syncStep env o secretData currentDigest created target
        | .ok _ =>
          match env.getTarget2 with
          | .error e =>
              { ret := .normal ⟨0⟩ (some e), created := none,
                fetchInvoked := false, updated := none }
          | .ok target =>
              syncStep env o secretData currentDigest none target

/-! ## Helper predicates and concrete fixtures -/

/-- Whether a target-secret get failed with a non-`IsNotFound` error (the
only step-4a outcome that ends the pass early). -/
def getOtherErr : Except K8sErr Secret → Bool
  | .error (.other _) => true
  | _ => false

/-- The `r.Create` argument of a pass, as determined by the step-4a get. -/
def createdOf (env : ReconcileEnv) (o : OCISecretRes) : Option Secret :=
  match env.getTarget1 with
  | .error .notFound => some (newTargetSecret o)
  | _ => none

/-- Whether a modelled library call failed. -/
def isErr : Except String α → Bool
  | .error _ => true
  | .ok _ => false

/-- A real digest string `<algorithm>:<hex>` (the spec's form; the code only
ever compares digests as opaque strings). -/
def realDigestForm (d : String) : Prop :=
  ∃ alg hex, d = alg ++ ":" ++ hex

/-- A registry/filesystem oracle on which every library call succeeds; the
artifact carries digest `sha256:aa` and one extracted file `a`. -/
def libOkAa : OrasLibEnv :=
  { newRepository := .ok (), newMemoryStore := .ok (),
    fetch := .ok ⟨"sha256:aa"⟩, mkdirTemp := .ok "/tmp/oras1",
    fileNew := .ok (), copy := .ok ⟨"sha256:aa"⟩,
    readDir := .ok [⟨"a", false, .ok [1]⟩] }

/-- An `OCISecret` with no pull secret and an empty `Sync.Files` list. -/
def oC1 : OCISecretRes :=
  { apiVersion := "oci-sync.brtrm.de/v1aplha1", kind := "OCISecret",
    name := "s", uid := "u1",
    spec := { artefactPullSecret := ⟨"", ""⟩,
              artefactRegistry := "reg.example/repo",
              orasArtefact := "v1", targetSecret := ⟨"t", "tns"⟩,
              syncFiles := [] } }

/-- A target secret whose stored revision already equals the digest
`sha256:aa` that the registry currently reports, holding one data entry. -/
def tC1 : Secret :=
  { name := "t", ns := "tns",
    annotations := [("OCISecret.operator.rev", "sha256:aa")],
    ownerReferences := [], data := [("a", [1])] }

/-- A pass for `oC1` in which the target exists and its digest is current. -/
def envC1 : ReconcileEnv :=
  { getOCISecret := .ok oC1, getPullSecret := .error .notFound,
    digestLib := libOkAa, getTarget1 := .ok tC1, createResult := none,
    getTarget2 := .ok tC1, filesLib := libOkAa, updateResult := none }

/-- An oracle on which `remote.NewRepository` rejects the registry
address. -/
def libBadAddr : OrasLibEnv :=
  { libOkAa with newRepository := .error "invalid reference" }

/-- An oracle on which parsing the Docker credential bytes fails. -/
def libBadCreds : OrasLibEnv :=
  { libOkAa with newMemoryStore := .error "invalid auth configuration" }

/-- An `OCISecret` tracking digest `sha256:d1` with empty `Sync.Files`. -/
def oC4 : OCISecretRes :=
  { oC1 with name := "s4", uid := "u4" }

/-- All-success oracle for digest `sha256:d1` with one extracted file. -/
def libD1 : OrasLibEnv :=
  { libOkAa with fetch := .ok ⟨"sha256:d1"⟩, copy := .ok ⟨"sha256:d1"⟩ }

/-- First-ever pass for `oC4`: the target secret is absent, gets created and
re-read, and the artifact is fully synced. -/
def envC4first : ReconcileEnv :=
  { getOCISecret := .ok oC4, getPullSecret := .error .notFound,
    digestLib := libD1, getTarget1 := .error .notFound, createResult := none,
    getTarget2 := .ok (newTargetSecret oC4), filesLib := libD1,
    updateResult := none }

/-- The target secret exactly as the first pass persisted it. -/
def targetAfterFirst : Secret :=
  ((Reconcile envC4first).updated).getD (newTargetSecret oC4)

/-- Second pass for `oC4` against the unchanged remote digest `sha256:d1`,
re-reading the record the first pass wrote. -/
def envC4second : ReconcileEnv :=
  { envC4first with getTarget1 := .ok targetAfterFirst,
                    getTarget2 := .ok targetAfterFirst }

/-- An `OCISecret` like `oC4` but requesting exactly the file `a`. -/
def oC4w : OCISecretRes :=
  { oC4 with spec := { oC4.spec with syncFiles := ["a"] } }

/-- A target secret holding exactly the allow-listed file with the current
digest `sha256:d1`. -/
def tC4w : Secret :=
  { name := "t", ns := "tns",
    annotations := [("OCISecret.operator.rev", "sha256:d1")],
    ownerReferences := [], data := [("a", [1])] }

/-- Second pass for `oC4w`: digest unchanged and entry count matching. -/
def envC4w : ReconcileEnv :=
  { envC4first with getOCISecret := .ok oC4w, getTarget1 := .ok tC4w,
                    getTarget2 := .ok tC4w }

/-- An `OCISecret` whose pull-secret reference is fully specified. -/
def oC5 : OCISecretRes :=
  { oC1 with
    spec := { oC1.spec with artefactPullSecret := ⟨"p", "pns"⟩ } }

/-- A pull secret that exists but has no `.dockerconfigjson` key. -/
def psC5 : Secret :=
  { name := "p", ns := "pns", annotations := [], ownerReferences := [],
    data := [("foo", [1])] }

/-- A pass in which the referenced pull secret lacks the credential key. -/
def envC5 : ReconcileEnv :=
  { envC1 with getOCISecret := .ok oC5, getPullSecret := .ok psC5 }

/-- A pull secret whose `.dockerconfigjson` value is the empty byte string,
which the code treats the same as a missing key. -/
def psC5w : Secret :=
  { psC5 with data := [(".dockerconfigjson", [])] }

/-- A pass in which the referenced pull secret holds an empty credential. -/
def envC5w : ReconcileEnv :=
  { envC5 with getPullSecret := .ok psC5w }

/-- A pass whose `OCISecret` has been deleted: the initial get reports
not-found. -/
def envC6 : ReconcileEnv :=
  { envC1 with getOCISecret := .error .notFound }

/-- A no-op pass for `oC1` whose target already matches: stored digest
`sha256:aa` and zero data entries against the empty `Sync.Files`. -/
def tC6w : Secret :=
  { name := "t", ns := "tns",
    annotations := [("OCISecret.operator.rev", "sha256:aa")],
    ownerReferences := [], data := [] }

/-- A completed pass (target current, nothing to update). -/
def envC6w : ReconcileEnv :=
  { envC1 with getTarget1 := .ok tC6w, getTarget2 := .ok tC6w }

/-- An oracle on which the copy succeeds with digest `sha256:dd` but the
extracted files cannot be read back. -/
def libReadFail : OrasLibEnv :=
  { libOkAa with copy := .ok ⟨"sha256:dd"⟩,
                 readDir := .error "eingabe kaputt" }

/-- An oracle on which the registry copy itself fails. -/
def libCopyFail : OrasLibEnv :=
  { libOkAa with copy := .error "connection refused" }

/-- First-ever pass for `oC1`: target absent, created, re-read. -/
def envC9 : ReconcileEnv :=
  { envC1 with getTarget1 := .error .notFound,
               getTarget2 := .ok (newTargetSecret oC1) }

/-- An `OCISecret` whose pull-secret reference has a name but an empty
namespace. -/
def oC10 : OCISecretRes :=
  { oC1 with
    spec := { oC1.spec with artefactPullSecret := ⟨"p", ""⟩ } }

/-- A pass for `oC10`; the pull-secret get would fail if it were ever
attempted. -/
def envC10 : ReconcileEnv :=
  { envC1 with getOCISecret := .ok oC10,
               getPullSecret := .error (.other "never consulted") }

/-! ## General lemmas about the reconcile pass -/

/-- A pass that loads the `OCISecret`, resolves the credential, fetches the
digest, does not hit a hard get error on the target and re-reads the target
successfully always reaches the comparison-and-sync step. -/
theorem reconcile_reaches_sync (env : ReconcileEnv) (o : OCISecretRes)
    (cd : Bytes) (d : String) (t : Secret)
    (h1 : env.getOCISecret = .ok o)
    (h2 : pullData env.getPullSecret o.spec = .ok cd)
    (h3 : GetDigest env.digestLib o.spec.artefactRegistry o.spec.orasArtefact
        cd = .ok d)
    (h4 : getOtherErr env.getTarget1 = false)
    (h5 : env.getTarget2 = .ok t) :
    Reconcile env = syncStep env o cd d (createdOf env o) t := by
  cases ht1 : env.getTarget1 with
  | error e =>
    cases e with
    | notFound => simp [Reconcile, h1, h2, h3, h5, ht1, createdOf]
    | other m => simp [getOtherErr, ht1] at h4
  | ok s => simp [Reconcile, h1, h2, h3, h5, ht1, createdOf]

/-- `GetFiles` is invoked exactly when the revision annotation differs from
the fetched digest or the entry count differs from `len(Spec.Sync.Files)`. -/
theorem syncStep_fetchInvoked (env : ReconcileEnv) (o : OCISecretRes)
    (cd : Bytes) (d : String) (created : Option Secret) (t : Secret) :
    (syncStep env o cd d created t).fetchInvoked = true ↔
      (revisionOf t ≠ d ∨ t.data.length ≠ o.spec.syncFiles.length) := by
  unfold syncStep
  split
  next hcond =>
    cases hg : GetFiles env.filesLib o.spec.artefactRegistry
        o.spec.orasArtefact cd with
    | panicked m => simp [hg, hcond]
    | ok c => cases hu : env.updateResult <;> simp [hg, hu, hcond]
  next hcond => simp [hcond]

/-- The sync step never alters which create call was made. -/
theorem syncStep_created (env : ReconcileEnv) (o : OCISecretRes)
    (cd : Bytes) (d : String) (created : Option Secret) (t : Secret) :
    (syncStep env o cd d created t).created = created := by
  unfold syncStep
  split
  · cases hg : GetFiles env.filesLib o.spec.artefactRegistry
        o.spec.orasArtefact cd with
    | panicked m => simp [hg]
    | ok c => cases hu : env.updateResult <;> simp [hg, hu]
  · rfl

/-- When the revision matches the digest and the entry count matches the
allow-list length, the sync step is a pure no-op returning the 60s delay. -/
theorem syncStep_skip (env : ReconcileEnv) (o : OCISecretRes)
    (cd : Bytes) (d : String) (created : Option Secret) (t : Secret)
    (hrev : revisionOf t = d)
    (hlen : t.data.length = o.spec.syncFiles.length) :
    syncStep env o cd d created t =
      { ret := .normal ⟨60⟩ none, created := created, fetchInvoked := false,
        updated := none } := by
  unfold syncStep
  split
  next hcond => exact absurd hcond (by simp [hrev, hlen])
  next => rfl

/-- When the content download succeeds and the update is accepted, the sync
step returns the 60-second delay with no error, whether or not it synced. -/
theorem syncStep_ret60 (env : ReconcileEnv) (o : OCISecretRes)
    (cd : Bytes) (d : String) (created : Option Secret) (t : Secret)
    (c : Filemap)
    (hg : GetFiles env.filesLib o.spec.artefactRegistry o.spec.orasArtefact
        cd = .ok c)
    (hu : env.updateResult = none) :
    (syncStep env o cd d created t).ret = .normal ⟨60⟩ none := by
  unfold syncStep
  split
  · simp [hg, hu]
  · rfl

/-- The placeholder revision `"00000"` differs from every string of the
digest form `<algorithm>:<hex>`, because it contains no colon. -/
theorem sentinel_ne_realDigest (d : String) (hd : realDigestForm d) :
    "00000" ≠ d := by
  obtain ⟨alg, hex, rfl⟩ := hd
  intro hEq
  have hdata : ("00000" : String).data = (alg ++ ":" ++ hex).data :=
    congrArg String.data hEq
  rw [String.data_append, String.data_append] at hdata
  have hmem : (':' : Char) ∈ ("00000" : String).data := by
    rw [hdata]
    simp
  revert hmem
  decide

/-! ## C1 — sync trigger condition -/

/-- C1, as stated, is false: in `envC1` the stored digest equals the
currently fetched digest `sha256:aa` and `Sync.Files` is empty, yet the pass
performs a full sync (the content fetch runs and an update is persisted),
because the code compares `len(data)` against `len(Sync.Files)` without
first checking that the allow-list is non-empty. -/
theorem C1_sync_trigger_cex :
    (Reconcile envC1).fetchInvoked = true ∧
    (Reconcile envC1).updated ≠ none ∧
    ¬ (revisionOf tC1 ≠ "sha256:aa" ∨
        (oC1.spec.syncFiles ≠ [] ∧
          tC1.data.length ≠ oC1.spec.syncFiles.length)) := by
  decide

/-- C1 (amended): a full sync is performed iff the stored digest differs
from the fetched digest OR the entry count differs from the length of
`Sync.Files` — the length disagreement triggers a sync even when the
allow-list is empty. -/
theorem C1_sync_trigger (env : ReconcileEnv) (o : OCISecretRes)
    (cd : Bytes) (d : String) (t : Secret)
    (h1 : env.getOCISecret = .ok o)
    (h2 : pullData env.getPullSecret o.spec = .ok cd)
    (h3 : GetDigest env.digestLib o.spec.artefactRegistry o.spec.orasArtefact
        cd = .ok d)
    (h4 : getOtherErr env.getTarget1 = false)
    (h5 : env.getTarget2 = .ok t) :
    (Reconcile env).fetchInvoked = true ↔
      (revisionOf t ≠ d ∨ t.data.length ≠ o.spec.syncFiles.length) := by
  rw [reconcile_reaches_sync env o cd d t h1 h2 h3 h4 h5]
  exact syncStep_fetchInvoked env o cd d (createdOf env o) t

/-- C1 witness: the amended trigger condition evaluated on `envC1`. -/
theorem C1_sync_trigger_witness :
    (Reconcile envC1).fetchInvoked = true ↔
      (revisionOf tC1 ≠ "sha256:aa" ∨
        tC1.data.length ≠ oC1.spec.syncFiles.length) :=
  C1_sync_trigger envC1 oC1 [] "sha256:aa" tC1 rfl rfl rfl rfl rfl

/-! ## C2 — error propagation of the core operations -/

/-- C2, as stated, is false: when `remote.NewRepository` rejects the
registry address, `CreateClient`, `GetDigest` and `GetFiles` all panic —
terminating the host process — instead of surfacing an error value; the same
happens when the credential bytes fail to parse. -/
theorem C2_no_process_abort_cex :
    CreateClient libBadAddr "%%bad%%" [] = .panicked "invalid reference" ∧
    GetDigest libBadAddr "%%bad%%" "v1" [] =
      .panicked "invalid reference" ∧
    GetFiles libBadAddr "%%bad%%" "v1" [] =
      .panicked "invalid reference" ∧
    CreateClient libBadCreds "reg.example/repo" [1] =
      .panicked "invalid auth configuration" := by
  decide

/-- C2 (amended): client construction and digest fetch never return an
error value — they panic exactly when an underlying library call (repository
construction, credential parsing when credentials are present, or the
manifest fetch) fails; only `GetFilesContentBinary` returns explicit
errors. -/
theorem C2_panic_on_failure (lib : OrasLibEnv) (registry tag : String)
    (cd : Bytes) :
    ((∃ m, CreateClient lib registry cd = .panicked m) ↔
      (isErr lib.newRepository = true ∨
        (cd ≠ [] ∧ isErr lib.newMemoryStore = true))) ∧
    ((∃ m, GetDigest lib registry tag cd = .panicked m) ↔
      (isErr lib.newRepository = true ∨
        (cd ≠ [] ∧ isErr lib.newMemoryStore = true) ∨
        isErr lib.fetch = true)) := by
  cases hr : lib.newRepository with
  | error e => simp [CreateClient, GetDigest, isErr, hr]
  | ok u =>
    cases cd with
    | nil =>
      cases hf : lib.fetch <;>
        simp [CreateClient, GetDigest, isErr, hr, hf]
    | cons b bs =>
      cases hm : lib.newMemoryStore with
      | error e => simp [CreateClient, GetDigest, isErr, hr, hm]
      | ok v =>
        cases hf : lib.fetch <;>
          simp [CreateClient, GetDigest, isErr, hr, hm, hf]

/-! ## C3 — filter with an empty allow-list -/

/-- C3, as stated, is false: filtering the one-entry map `{a ↦ [1]}` with an
empty allow-list empties the map instead of leaving it unchanged. -/
theorem C3_empty_allowlist_cex :
    FilterMapInPlace [("a", [1])] [] = [] ∧
    FilterMapInPlace [("a", [1])] [] ≠ [("a", [1])] := by
  decide

/-- C3 (amended): applying the filter operation with an empty allow-list
removes every entry — the resulting map is empty, not `M`; at the filter
level an empty allow-list means "remove everything" (the controller obtains
the "no restriction" behaviour by skipping the filter call entirely when
`Sync.Files` is empty). -/
theorem C3_empty_allowlist (m : List (String × Bytes)) :
    FilterMapInPlace m [] = [] := by
  simp [FilterMapInPlace]

/-! ## C4 — idempotence of consecutive passes -/

/-- C4, as stated, is false: after a first pass for `oC4` (empty
`Sync.Files`, one synced file), a second pass re-reading exactly the record
the first pass wrote, with the remote digest unchanged at `sha256:d1`,
invokes the content fetch again and issues another persist call, because
`len(data) = 1` differs from `len(Sync.Files) = 0`. -/
theorem C4_idempotence_cex :
    (Reconcile envC4first).updated = some targetAfterFirst ∧
    revisionOf targetAfterFirst = "sha256:d1" ∧
    GetDigest envC4second.digestLib oC4.spec.artefactRegistry
      oC4.spec.orasArtefact [] = .ok "sha256:d1" ∧
    (Reconcile envC4second).fetchInvoked = true ∧
    (Reconcile envC4second).updated ≠ none := by
  decide

/-- C4 (amended): a second pass against an unchanged remote digest performs
zero writes — no content fetch, no persist call — provided the stored entry
count equals `len(Sync.Files)`; when the counts differ (in particular with
an empty `Sync.Files` and non-empty data) the pass syncs again. -/
theorem C4_idempotence (env : ReconcileEnv) (o : OCISecretRes)
    (cd : Bytes) (d : String) (t : Secret)
    (h1 : env.getOCISecret = .ok o)
    (h2 : pullData env.getPullSecret o.spec = .ok cd)
    (h3 : GetDigest env.digestLib o.spec.artefactRegistry o.spec.orasArtefact
        cd = .ok d)
    (h4 : getOtherErr env.getTarget1 = false)
    (h5 : env.getTarget2 = .ok t)
    (hrev : revisionOf t = d)
    (hlen : t.data.length = o.spec.syncFiles.length) :
    (Reconcile env).fetchInvoked = false ∧ (Reconcile env).updated = none := by
  rw [reconcile_reaches_sync env o cd d t h1 h2 h3 h4 h5,
    syncStep_skip env o cd d (createdOf env o) t hrev hlen]
  exact ⟨rfl, rfl⟩

/-- C4 witness: the second pass for `oC4w` (allow-list `[a]`, stored entry
count 1, digest unchanged) performs zero writes. -/
theorem C4_idempotence_witness :
    (Reconcile envC4w).fetchInvoked = false ∧
    (Reconcile envC4w).updated = none :=
  C4_idempotence envC4w oC4w [] "sha256:d1" tC4w rfl rfl rfl rfl rfl rfl rfl

/-! ## C5 — pull secret lacking the credential key -/

/-- C5, as stated, is false: in `envC5` the credential reference is set and
the referenced record exists but lacks `.dockerconfigjson`; the pass ends
without mutating the target — but it returns a nil error (and a zero
requeue delay), reporting nothing to the caller. -/
theorem C5_missing_key_cex :
    Reconcile envC5 =
      { ret := .normal ⟨0⟩ none, created := none, fetchInvoked := false,
        updated := none } := by
  decide

/-- C5 (amended): when the referenced credential record exists but lacks the
expected key (or holds an empty value under it), the pass ends without
mutating the TargetRecord and returns success — a nil error with a zero
requeue delay — merely logging the condition instead of reporting an
error. -/
theorem C5_missing_key (env : ReconcileEnv) (o : OCISecretRes) (ps : Secret)
    (h1 : env.getOCISecret = .ok o)
    (hn : o.spec.artefactPullSecret.name ≠ "")
    (hns : o.spec.artefactPullSecret.ns ≠ "")
    (hps : env.getPullSecret = .ok ps)
    (hkey : (ps.data.lookup ".dockerconfigjson").getD [] = []) :
    Reconcile env =
      { ret := .normal ⟨0⟩ none, created := none, fetchInvoked := false,
        updated := none } := by
  simp [Reconcile, pullData, h1, hps, hn, hns, hkey]

/-- C5 witness: the pass whose pull secret holds an empty credential value
ends as a silent no-op. -/
theorem C5_missing_key_witness :
    Reconcile envC5w =
      { ret := .normal ⟨0⟩ none, created := none, fetchInvoked := false,
        updated := none } :=
  C5_missing_key envC5w oC5 psC5w rfl (by decide) (by decide) rfl rfl

/-! ## C6 — fixed 60-second revisit delay -/

/-- C6, as stated, is false: the pass in which the `OCISecret` has been
deleted ends without error but returns `ctrl.Result{}` — a zero requeue
delay, not the fixed 60 seconds. -/
theorem C6_fixed_delay_cex :
    Reconcile envC6 =
      { ret := .normal ⟨0⟩ none, created := none, fetchInvoked := false,
        updated := none } := by
  decide

/-- C6 (amended): a pass that reaches the digest comparison and completes
without error returns the fixed 60-second delay, sync or no-op alike; the
early nil-error exits (resource deleted, pull secret lacking the credential
key) return a zero delay instead. -/
theorem C6_fixed_delay (env : ReconcileEnv) (o : OCISecretRes)
    (cd : Bytes) (d : String) (t : Secret) (c : Filemap)
    (h1 : env.getOCISecret = .ok o)
    (h2 : pullData env.getPullSecret o.spec = .ok cd)
    (h3 : GetDigest env.digestLib o.spec.artefactRegistry o.spec.orasArtefact
        cd = .ok d)
    (h4 : getOtherErr env.getTarget1 = false)
    (h5 : env.getTarget2 = .ok t)
    (hg : GetFiles env.filesLib o.spec.artefactRegistry o.spec.orasArtefact
        cd = .ok c)
    (hu : env.updateResult = none) :
    (Reconcile env).ret = .normal ⟨60⟩ none := by
  rw [reconcile_reaches_sync env o cd d t h1 h2 h3 h4 h5]
  exact syncStep_ret60 env o cd d (createdOf env o) t c hg hu

/-- C6 witness: the no-op pass `envC6w` returns the 60-second delay. -/
theorem C6_fixed_delay_witness :
    (Reconcile envC6w).ret = .normal ⟨60⟩ none :=
  C6_fixed_delay envC6w oC1 [] "sha256:aa" tC6w ⟨"sha256:aa", [("a", [1])]⟩
    rfl rfl rfl rfl rfl rfl rfl

/-! ## C7 — failure behaviour of the content fetch -/

/-- C7, as stated, is false: on `libReadFail` the copy succeeds with digest
`sha256:dd` but reading the extracted files fails; `GetFiles` nevertheless
returns a successful `Filemap` with the digest and a nil file map — the
read error is discarded, no `FETCH_FAILED` error reaches the caller. -/
theorem C7_fetch_failure_cex :
    GetFilesContentBinary libReadFail.readDir =
      .error "fehler beim Lesen des Verzeichnisses: eingabe kaputt" ∧
    GetFiles libReadFail "reg.example/repo" "v1" [] =
      .ok ⟨"sha256:dd", []⟩ := by
  decide

/-- C7 (amended): a transport/auth/not-found failure of the copy makes
`GetFiles` panic (no error value is returned); a failure reading the
extracted files is silently discarded — `GetFiles` returns success carrying
the digest and a nil (empty) file map rather than reporting the cause. -/
theorem C7_fetch_failure (lib : OrasLibEnv) (registry tag : String)
    (cd : Bytes) (tmp : String) (repo : Repository)
    (h1 : lib.mkdirTemp = .ok tmp)
    (h2 : lib.fileNew = .ok ())
    (h3 : CreateClient lib registry cd = .ok repo) :
    (∀ m, lib.copy = .error m → GetFiles lib registry tag cd = .panicked m) ∧
    (∀ d e, lib.copy = .ok d → lib.readDir = .error e →
      GetFiles lib registry tag cd = .ok ⟨d.digest, []⟩) := by
  constructor
  · intro m hc
    simp [GetFiles, h1, h2, h3, hc]
  · intro d e hc hrd
    simp [GetFiles, GetFilesContentBinary, h1, h2, h3, hc, hrd]

/-- C7 witness: both failure shapes evaluated on concrete oracles. -/
theorem C7_fetch_failure_witness :
    GetFiles libCopyFail "reg.example/repo" "v1" [] =
      .panicked "connection refused" ∧
    GetFiles libReadFail "reg.example/repo" "v2" [] =
      .ok ⟨"sha256:dd", []⟩ :=
  ⟨(C7_fetch_failure libCopyFail "reg.example/repo" "v1" [] "/tmp/oras1"
      ⟨"reg.example/repo", .anonymous⟩ rfl rfl rfl).1 "connection refused" rfl,
    (C7_fetch_failure libReadFail "reg.example/repo" "v2" [] "/tmp/oras1"
      ⟨"reg.example/repo", .anonymous⟩ rfl rfl rfl).2 ⟨"sha256:dd"⟩
      "eingabe kaputt" rfl rfl⟩

/-! ## C8 — filter with a non-empty allow-list -/

/-- C8: for every file map `M` and non-empty allow-list `L`, the filtered
key set equals `keys(M) ∩ set(L)`, and every retained entry keeps exactly
the bytes it had in `M`. -/
theorem C8_filter_correct (m : List (String × Bytes)) (L : List String)
    (hL : L ≠ []) :
    (∀ k, k ∈ (FilterMapInPlace m L).map Prod.fst ↔
      (k ∈ m.map Prod.fst ∧ k ∈ L)) ∧
    (∀ kv, kv ∈ FilterMapInPlace m L ↔ (kv ∈ m ∧ kv.1 ∈ L)) := by
  refine ⟨fun k => ?_, fun kv => ?_⟩
  · simp [FilterMapInPlace, List.mem_filter, List.mem_map]
  · simp [FilterMapInPlace, List.mem_filter]

/-- C8 witness: the filter evaluated on a two-entry map with allow-list
`[a]`. -/
theorem C8_filter_correct_witness :
    ("a" ∈ (FilterMapInPlace [("a", [1]), ("b", [2])] ["a"]).map Prod.fst ↔
      ("a" ∈ ([("a", [1]), ("b", [2])] : List (String × Bytes)).map Prod.fst ∧
        "a" ∈ ["a"])) ∧
    (("b", [2]) ∈ FilterMapInPlace [("a", [1]), ("b", [2])] ["a"] ↔
      (("b", [2]) ∈ ([("a", [1]), ("b", [2])] : List (String × Bytes)) ∧
        "b" ∈ ["a"])) :=
  ⟨(C8_filter_correct [("a", [1]), ("b", [2])] ["a"] (by decide)).1 "a",
    (C8_filter_correct [("a", [1]), ("b", [2])] ["a"] (by decide)).2
      ("b", [2])⟩

/-! ## C9 — first-ever pass creates and immediately syncs -/

/-- C9: on the first pass with the target absent, the target is created with
the placeholder revision `"00000"` — which differs from every real digest
`<algorithm>:<hex>` — and an owner reference to the `OCISecret`; after the
re-read observes that record, a full sync runs within the same pass. -/
theorem C9_first_pass_full_sync (env : ReconcileEnv) (o : OCISecretRes)
    (cd : Bytes) (d : String)
    (h1 : env.getOCISecret = .ok o)
    (h2 : pullData env.getPullSecret o.spec = .ok cd)
    (h3 : GetDigest env.digestLib o.spec.artefactRegistry o.spec.orasArtefact
        cd = .ok d)
    (hd : realDigestForm d)
    (h4 : env.getTarget1 = .error .notFound)
    (h5 : env.getTarget2 = .ok (newTargetSecret o)) :
    (Reconcile env).created = some (newTargetSecret o) ∧
    revisionOf (newTargetSecret o) = "00000" ∧
    (newTargetSecret o).ownerReferences =
      [⟨o.apiVersion, o.kind, o.name, o.uid, true, true⟩] ∧
    "00000" ≠ d ∧
    (Reconcile env).fetchInvoked = true := by
  have hne : "00000" ≠ d := sentinel_ne_realDigest d hd
  have h4' : getOtherErr env.getTarget1 = false := by rw [h4]; rfl
  have hcr : createdOf env o = some (newTargetSecret o) := by
    unfold createdOf
    rw [h4]
  have hrev : revisionOf (newTargetSecret o) = "00000" := rfl
  rw [reconcile_reaches_sync env o cd d (newTargetSecret o) h1 h2 h3 h4' h5]
  refine ⟨by rw [syncStep_created, hcr], hrev, rfl, hne, ?_⟩
  rw [syncStep_fetchInvoked]
  exact Or.inl (by rw [hrev]; exact hne)

/-- C9 witness: the first pass `envC9` with real digest `sha256:aa`. -/
theorem C9_first_pass_witness :
    (Reconcile envC9).created = some (newTargetSecret oC1) ∧
    revisionOf (newTargetSecret oC1) = "00000" ∧
    (newTargetSecret oC1).ownerReferences =
      [⟨oC1.apiVersion, oC1.kind, oC1.name, oC1.uid, true, true⟩] ∧
    "00000" ≠ "sha256:aa" ∧
    (Reconcile envC9).fetchInvoked = true :=
  C9_first_pass_full_sync envC9 oC1 [] "sha256:aa" rfl rfl rfl
    ⟨"sha256", "aa", rfl⟩ rfl rfl

/-! ## C10 — empty pull-secret reference means anonymous access -/

/-- C10: when the pull-secret reference has an empty name or an empty
namespace, step 2 resolves to empty credential bytes without consulting the
referenced secret and without error, and the registry client built from
empty credentials is the anonymous one. -/
theorem C10_empty_ref_anonymous (env : ReconcileEnv) (o : OCISecretRes)
    (h1 : env.getOCISecret = .ok o)
    (h2 : o.spec.artefactPullSecret.name = "" ∨
      o.spec.artefactPullSecret.ns = "") :
    pullData env.getPullSecret o.spec = .ok [] ∧
    (∀ lib : OrasLibEnv, ∀ reg : String, lib.newRepository = .ok () →
      CreateClient lib reg [] = .ok ⟨reg, .anonymous⟩) := by
  constructor
  · simp [pullData, h2]
  · intro lib reg hr
    simp [CreateClient, hr]

/-- C10 witness: a reference with a name but an empty namespace resolves to
empty credentials even though the referenced get would fail, and the client
built from them is anonymous. -/
theorem C10_empty_ref_witness :
    pullData envC10.getPullSecret oC10.spec = .ok [] ∧
    CreateClient libOkAa "reg.example/repo" [] =
      .ok ⟨"reg.example/repo", .anonymous⟩ :=
  ⟨(C10_empty_ref_anonymous envC10 oC10 rfl (Or.inr rfl)).1,
    (C10_empty_ref_anonymous envC10 oC10 rfl (Or.inr rfl)).2 libOkAa
      "reg.example/repo" rfl⟩

end OciSync
